import Mathlib

/-!
# Verification of the bushel directory-document crawler/archiver

A shallow embedding, in Lean 4, of the parts of the `bushel` code base that
the specification's claims are about:

* the CollecTor archive path functions and store/get round trip
  (`src/bushel/archive.py`),
* the directory-server query paths and batching (`src/bushel/downloader.py`),
* the read-through descriptor cache (`src/bushel/cache.py`),
* the directory-document tokenizer and itemizer state machine
  (`src/bushel/documents/directory.py`).

Python strings are modelled as Lean `String` (for the path and query-path
functions, whose domain is ASCII hex digests and fingerprints) and byte
strings as `List Nat` with every element a byte value.  Python `datetime`
values are modelled by the `PyDateTime` structure below.  Filesystem and
network effects are modelled by explicit state passing.
-/

/-- ASCII upper-casing of one character, modelling CPython `str.upper` on the
ASCII subset that digests, fingerprints and path components are drawn from. -/
def pyCharUpper (c : Char) : Char :=
  if 'a' ≤ c ∧ c ≤ 'z' then Char.ofNat (c.toNat - 32) else c

/-- ASCII lower-casing of one character, modelling CPython `str.lower` on the
ASCII subset that digests, fingerprints and path components are drawn from. -/
def pyCharLower (c : Char) : Char :=
  if 'A' ≤ c ∧ c ≤ 'Z' then Char.ofNat (c.toNat + 32) else c

/-- Model of Python `s.upper()` for ASCII strings. -/
def pyUpper (s : String) : String := String.mk (s.data.map pyCharUpper)

/-- Model of Python `s.lower()` for ASCII strings. -/
def pyLower (s : String) : String := String.mk (s.data.map pyCharLower)

/-- Model of the Python format spec `{n:02d}` for a non-negative number:
zero-pad to two digits, print wider numbers in full. -/
def pad2 (n : Nat) : String := if n < 10 then "0" ++ toString n else toString n

/-- The UTF-8 bytes of an ASCII string (`s.encode("utf-8")` for ASCII `s`). -/
def strBytes (s : String) : List Nat := s.data.map Char.toNat

/-- A Python `datetime.datetime` restricted to the fields the archive path
functions read. -/
structure PyDateTime where
  year : Nat
  month : Nat
  day : Nat
  hour : Nat
  minute : Nat
  second : Nat
deriving DecidableEq, Repr

/-- Model of `os.path.join(a, b)` for the use made of it in `archive.py`:
both components are non-empty relative-or-root paths without trailing
slashes, so the result is `a ++ "/" ++ b`. -/
def pathJoin (a b : String) : String := a ++ "/" ++ b

/-! ## Archive path functions (`src/bushel/archive.py`)

The string constants mirror the `CollectorOutSubdirectory`,
`CollectorOutRelayDescsMarker` and `CollectorOutBridgeDescsMarker` enums. -/

def subdirRELAY_DESCRIPTORS : String := "relay-descriptors"

def markerSERVER_DESCRIPTOR : String := "server-descriptor"

def markerVOTE : String := "vote"

/-- `collector_433_filename(valid_after, v3ident, digest)`: filename for a
network status vote (§4.3.3 of the CollecTor protocol). The v3ident and the
digest are up-cased. -/
def collector_433_filename (valid_after : PyDateTime) (v3ident digest : String) : String :=
  let v3 := pyUpper v3ident
  let dg := pyUpper digest
  toString valid_after.year ++ "-" ++ pad2 valid_after.month ++ "-" ++
    pad2 valid_after.day ++ "-" ++ pad2 valid_after.hour ++ "-" ++
    pad2 valid_after.minute ++ "-" ++ pad2 valid_after.second ++ "-vote-" ++
    v3 ++ "-" ++ dg

/-- `collector_521_substructure(published, digest)`: the `YYYY/MM/d0/d1`
substructure (§5.2.1), sharded on the first two characters of the
lower-cased digest.  (Python indexes `digest[0]` and `digest[1]`; callers
always pass hex digests of length at least two.) -/
def collector_521_substructure (published : PyDateTime) (digest : String) : String :=
  let d := pyLower digest
  pathJoin (pathJoin (pathJoin (toString published.year) (pad2 published.month))
    (d.take 1)) ((d.drop 1).take 1)

/-- `collector_521_path(subdirectory, marker, published, digest)` (§5.2.1):
path for server-descriptors and extra-info descriptors. -/
def collector_521_path (subdirectory marker : String) (published : PyDateTime)
    (digest : String) : String :=
  let d := pyLower digest
  pathJoin (pathJoin (pathJoin subdirectory marker)
    (collector_521_substructure published d)) d

/-- `collector_522_substructure(valid_after)`: the `YYYY/MM/DD` substructure
(§5.2.2). -/
def collector_522_substructure (valid_after : PyDateTime) : String :=
  pathJoin (pathJoin (toString valid_after.year) (pad2 valid_after.month))
    (pad2 valid_after.day)

/-- `collector_522_path(subdirectory, marker, valid_after, filename)`
(§5.2.2): path for bridge statuses, consensuses and votes. -/
def collector_522_path (subdirectory marker : String) (valid_after : PyDateTime)
    (filename : String) : String :=
  pathJoin (pathJoin (pathJoin subdirectory marker)
    (collector_522_substructure valid_after)) filename

/-! ## Downloader query paths (`src/bushel/downloader.py`) -/

/-- `relay_server_descriptors_query_path(digests)`: the digests joined by
`"+"` after the fixed prefix (the Python source is
`"/tor/server/d/" + "+".join(digests)`). -/
def relay_server_descriptors_query_path (digests : List String) : String :=
  "/tor/server/d/" ++ String.intercalate "+" digests

/-- `relay_extra_info_descriptors_query_path(digests)`. -/
def relay_extra_info_descriptors_query_path (digests : List String) : String :=
  "/tor/extra/d/" ++ String.intercalate "+" digests

/-- The query path used by `DirectoryDownloader._consensus_attempt`, the
f-string `f"/tor/status-vote/current/consensus-{flavor}"`. -/
def consensus_query_path (flavor : String) : String :=
  "/tor/status-vote/current/consensus-" ++ flavor

/-- Fuel-driven worker for `chunks`.  Each step takes one slice of `n`
elements, as the Python comprehension does for one value of `i`; the fuel
argument only bounds the recursion and `chunks` always supplies enough. -/
def chunksGo (n : Nat) : Nat → List α → List (List α)
  | 0, _ => []
  | _ + 1, [] => []
  | fuel + 1, l@(_ :: _) => l.take n :: chunksGo n fuel (l.drop n)

/-- `chunks = lambda l, n: [l[i:i + n] for i in range(0, len(l), n)]`
(downloader.py line 22): split a list into consecutive slices of at most
`n` elements.  (Python raises `ValueError` for `n = 0`; the model is only
used, as the source is, with the positive constants below.) -/
def chunks (l : List α) (n : Nat) : List (List α) := chunksGo n l.length l

/-- `stem.descriptor.remote.MAX_FINGERPRINTS`: the largest number of
fingerprints or digests in one descriptor query. -/
def MAX_FINGERPRINTS : Nat := 96

/-- The batches into which `DirectoryDownloader.relay_server_descriptors`
splits its digest list (`batches = chunks(digests, MAX_FINGERPRINTS)`);
each batch is then issued as one `_multiple_descriptors` request and the
results are chained in order. -/
def relay_server_descriptors_batches (digests : List String) : List (List String) :=
  chunks digests MAX_FINGERPRINTS

/-! ## SHA-1 (`hashlib.sha1`, FIPS 180-4)

`DirectoryArchive.path_for` computes the digest in a vote filename with
`hashlib.sha1(...).hexdigest().upper()`; the hash is implemented here over
byte lists, with 32-bit words as naturals reduced mod `2 ^ 32`. -/

def w32mod : Nat := 4294967296

/-- Left-rotation of a 32-bit word. -/
def rotl32 (n x : Nat) : Nat := ((x <<< n) ||| (x >>> (32 - n))) % w32mod

/-- Big-endian word from a list of bytes. -/
def beWordOfBytes (bs : List Nat) : Nat := bs.foldl (fun a b => a * 256 + b) 0

/-- The `k` big-endian bytes of a value. -/
def beBytesOfWord (k : Nat) (v : Nat) : List Nat :=
  (List.range k).reverse.map (fun i => (v >>> (8 * i)) % 256)

/-- SHA-1 padding: `0x80`, zeros up to 56 mod 64, then the 64-bit
big-endian bit length. -/
def sha1Pad (msg : List Nat) : List Nat :=
  let padLen := (119 - (msg.length % 64)) % 64
  msg ++ [128] ++ List.replicate padLen 0 ++ beBytesOfWord 8 (msg.length * 8)

/-- Extend the 16 schedule words to 80, one per fuel step. -/
def sha1Extend : Nat → List Nat → List Nat
  | 0, ws => ws
  | fuel + 1, ws =>
    let i := ws.length
    let w := rotl32 1 ((ws.getD (i - 3) 0) ^^^ (ws.getD (i - 8) 0) ^^^
      (ws.getD (i - 14) 0) ^^^ (ws.getD (i - 16) 0))
    sha1Extend fuel (ws ++ [w])

/-- The 80-entry message schedule of one 64-byte block. -/
def sha1Schedule (block : List Nat) : List Nat :=
  sha1Extend 64 (List.map beWordOfBytes (chunks block 4))

structure Sha1State where
  h0 : Nat
  h1 : Nat
  h2 : Nat
  h3 : Nat
  h4 : Nat
deriving DecidableEq, Repr

/-- Round function and constant for round `i`. -/
def sha1Fk (i b c d : Nat) : Nat × Nat :=
  if i < 20 then ((b &&& c) ||| ((b ^^^ 4294967295) &&& d), 1518500249)
  else if i < 40 then (b ^^^ c ^^^ d, 1859775393)
  else if i < 60 then ((b &&& c) ||| (b &&& d) ||| (c &&& d), 2400959708)
  else (b ^^^ c ^^^ d, 3395469782)

/-- One SHA-1 round applied to the working state `(a, b, c, d, e)`. -/
def sha1Round (ws : List Nat) (st : Nat × Nat × Nat × Nat × Nat) (i : Nat) :
    Nat × Nat × Nat × Nat × Nat :=
  let (a, b, c, d, e) := st
  let (f, k) := sha1Fk i b c d
  let temp := (rotl32 5 a + f + e + k + ws.getD i 0) % w32mod
  (temp, a, rotl32 30 b, c, d)

/-- Compress one 64-byte block into the running state. -/
def sha1Block (st : Sha1State) (block : List Nat) : Sha1State :=
  let ws := sha1Schedule block
  let z := (List.range 80).foldl (sha1Round ws) (st.h0, st.h1, st.h2, st.h3, st.h4)
  ⟨(st.h0 + z.1) % w32mod, (st.h1 + z.2.1) % w32mod, (st.h2 + z.2.2.1) % w32mod,
    (st.h3 + z.2.2.2.1) % w32mod, (st.h4 + z.2.2.2.2) % w32mod⟩

def sha1Init : Sha1State := ⟨1732584193, 4023233417, 2562383102, 271733878, 3285377520⟩

/-- SHA-1 digest (20 bytes) of a byte list. -/
def sha1 (msg : List Nat) : List Nat :=
  let st := (chunks (sha1Pad msg) 64).foldl sha1Block sha1Init
  beBytesOfWord 4 st.h0 ++ beBytesOfWord 4 st.h1 ++ beBytesOfWord 4 st.h2 ++
    beBytesOfWord 4 st.h3 ++ beBytesOfWord 4 st.h4

def hexCharLower (n : Nat) : Char :=
  if n < 10 then Char.ofNat (48 + n) else Char.ofNat (87 + n)

/-- Lower-case hex encoding of a byte list (Python `hexdigest()`). -/
def bytesToHexLower (bs : List Nat) : String :=
  String.mk (bs.foldr (fun b acc => hexCharLower (b / 16) :: hexCharLower (b % 16) :: acc) [])


/-! ## Vote digest and archive path (`DirectoryArchive.path_for`) -/

def pyFindAux (needle : List Nat) : List Nat → Nat → Int
  | [], i => if needle.isPrefixOf ([] : List Nat) then (i : Int) else -1
  | l@(_ :: t), i => if needle.isPrefixOf l then (i : Int) else pyFindAux needle t (i + 1)

/-- Model of Python `haystack.find(needle)` on byte strings: index of the
first occurrence, `-1` when absent. -/
def pyFind (haystack needle : List Nat) : Int := pyFindAux needle haystack 0

/-- The marker up to whose end a vote digest is computed: the source binds
`ending = "\ndirectory-signature "` (`path_for`, archive.py line 514). -/
def voteSigMarker : List Nat := strBytes "\ndirectory-signature "

/-- The signed portion of a vote,
`raw_content[:raw_content.find(ending) + len(ending)]` (archive.py lines
514-516; the slice bound is `-1 + 21` when the marker is absent). -/
def voteSignedPortion (raw : List Nat) : List Nat :=
  raw.take (pyFind raw voteSigMarker + (voteSigMarker.length : Int)).toNat

/-- The digest used in a vote filename:
`hashlib.sha1(raw_content).hexdigest().upper()` of the signed portion
(archive.py line 517). -/
def voteDigest (raw : List Nat) : String :=
  pyUpper (bytesToHexLower (sha1 (voteSignedPortion raw)))

/-- The archive-relative path at which `DirectoryArchive.store` archives a
vote: `path_for` passes the valid-after time, the first listed authority's
v3ident and `voteDigest` to `relay_vote_path`, which composes
`collector_522_path` over `collector_433_filename` (archive.py lines
510-520 and 697-723).  `path_for` then prepends the archive root. -/
def vote_store_relpath (valid_after : PyDateTime) (v3ident : String)
    (raw : List Nat) : String :=
  collector_522_path subdirRELAY_DESCRIPTORS markerVOTE valid_after
    (collector_433_filename valid_after v3ident (voteDigest raw))

/-! ## Archive store and retrieval (`DirectoryArchive`) -/

/-- A relay server descriptor as the archive sees it: the raw bytes, the
published time and the hex SHA-1 digest that stem's `descriptor.digest()`
returns for it. -/
structure ServerDescriptor where
  raw : List Nat
  published : PyDateTime
  digestHex : String
deriving DecidableEq, Repr

/-- stem's `RelayDescriptor.type_annotation()` rendered to a string.
Modelled from the spec: stem is not part of this repository, and §6 of the
spec fixes the recognized type-annotation for relay server descriptors as
`server-descriptor 1.0`. -/
def serverDescriptorTypeAnnot : String := "@type server-descriptor 1.0"

/-- `prepare_annotated_content(descriptor)`:
`str(type_annotation).encode("utf-8") + b"\n" + content`
(archive.py lines 411-422). -/
def prepare_annotated_content (d : ServerDescriptor) : List Nat :=
  strBytes serverDescriptorTypeAnnot ++ [10] ++ d.raw

/-- The filesystem, as paths associated with file contents; a write
prepends, and a read finds the most recent write. -/
abbrev FileSys := List (String × List Nat)

def fsWrite (fs : FileSys) (path : String) (content : List Nat) : FileSys :=
  (path, content) :: fs

def fsRead (fs : FileSys) (path : String) : Option (List Nat) :=
  List.lookup path fs

/-- `DirectoryArchive.relay_server_descriptor_path(published, digest)`:
the §5.2.1 path under the archive root (archive.py lines 610-634; the root
is prepended by `path_for` on the `str` branch). -/
def relay_server_descriptor_path (archivePath : String) (published : PyDateTime)
    (digest : String) : String :=
  pathJoin archivePath
    (collector_521_path subdirRELAY_DESCRIPTORS markerSERVER_DESCRIPTOR published digest)

/-- `DirectoryArchive.store(descriptor)` for a relay server descriptor:
writes `prepare_annotated_content(descriptor)` at `path_for(descriptor)`
(archive.py lines 729-734). -/
def archive_store_server_descriptor (archivePath : String) (fs : FileSys)
    (d : ServerDescriptor) : FileSys :=
  fsWrite fs (relay_server_descriptor_path archivePath d.published d.digestHex)
    (prepare_annotated_content d)

/-- Modelled from the spec: `parse_file` hands the file bytes to stem's
`Descriptor.from_str` (archive.py lines 98-125); stem is not part of this
repository and per the spec "the type-annotation line is stripped on
read", so the parsed document's raw bytes are the file content after the
line feed ending the annotation line.  A file without a line feed parses
as no descriptor. -/
def stripAnnotLine : List Nat → Option (List Nat)
  | [] => none
  | b :: rest => if b = 10 then some rest else stripAnnotLine rest

/-- `DirectoryArchive.relay_server_descriptor(digest, published_hint)`:
opens the path deterministically computed from the hint and parses the
file, here returning the raw bytes of the parsed document (archive.py
lines 740-757). -/
def archive_get_server_descriptor_raw (archivePath : String) (fs : FileSys)
    (digest : String) (published_hint : PyDateTime) : Option (List Nat) :=
  (fsRead fs (relay_server_descriptor_path archivePath published_hint digest)).bind
    stripAnnotLine

/-! ## Directory document tokenizer (`DirectoryDocument.tokenize`) -/

/-- A `DirectoryDocumentToken`; the value is `none` only for `EOF`. -/
structure DDToken where
  kind : String
  value : Option String
  line : Nat
  column : Nat
deriving DecidableEq, Repr

/-- The character set matched by the Python regex `\s` on `str` (the
Unicode whitespace characters). -/
def isPySpace (c : Char) : Bool :=
  let n := c.toNat
  decide ((9 ≤ n ∧ n ≤ 13) ∨ (28 ≤ n ∧ n ≤ 31) ∨ n = 32 ∨ n = 133 ∨ n = 160 ∨
    n = 5760 ∨ (8192 ≤ n ∧ n ≤ 8202) ∨ n = 8232 ∨ n = 8233 ∨ n = 8239 ∨
    n = 8287 ∨ n = 12288)

/-- The character class `[A-Za-z0-9- ]` of the BEGIN and END patterns. -/
def tagClassChar (c : Char) : Bool :=
  decide (('A' ≤ c ∧ c ≤ 'Z') ∨ ('a' ≤ c ∧ c ≤ 'z') ∨ ('0' ≤ c ∧ c ≤ '9') ∨
    c = '-' ∨ c = ' ')

/-- Matching of the alternatives `-----END [A-Za-z0-9- ]+-----\n` and
`-----BEGIN [A-Za-z0-9- ]+-----\n` at the head of `s`, where `tag` is the
literal prefix `"-----END "` or `"-----BEGIN "`.  The greedy class run
must be followed by the newline, which the class does not contain, so a
match ends exactly at the first newline, with the five dashes closing the
class run.  The value is the matched text without the prefix, the five
dashes and the newline (the slices `[9:-6]` and `[11:-6]` taken by
`tokenize`); the returned length is the full match length including the
newline. -/
def matchTag (tag : String) (s : List Char) : Option (String × Nat) :=
  if tag.data.isPrefixOf s then
    let rest := s.drop tag.length
    let r := rest.takeWhile tagClassChar
    if 6 ≤ r.length ∧ (rest.drop r.length).head? = some '\n' ∧
        r.drop (r.length - 5) = ['-', '-', '-', '-', '-'] then
      some (String.mk (r.take (r.length - 5)), tag.length + r.length + 1)
    else none
  else none

/-- One token match at the head of a non-empty input, in the alternation
order END, BEGIN, NL, PRINTABLE, WS, MISMATCH of the token specification
(directory.py lines 553-558): the kind, the value and the matched
length. -/
def nextMatch (c : Char) (cs : List Char) : String × Option String × Nat :=
  match matchTag "-----END " (c :: cs) with
  | some (v, len) => ("END", some v, len)
  | none =>
    match matchTag "-----BEGIN " (c :: cs) with
    | some (v, len) => ("BEGIN", some v, len)
    | none =>
      if c = '\n' then ("NL", some "\n", 1)
      else if !isPySpace c then
        let r := (c :: cs).takeWhile (fun x => !isPySpace x)
        ("PRINTABLE", some (String.mk r), r.length)
      else if c = ' ' ∨ c = '\t' then
        let r := (c :: cs).takeWhile (fun x => x == ' ' || x == '\t')
        ("WS", some (String.mk r), r.length)
      else ("MISMATCH", some (String.mk [c]), 1)

/-- The scanning loop of `DirectoryDocument.tokenize` (directory.py lines
559-576).  The state carries the remaining input, the input offset `pos`,
`line_num`, `line_start`, the last assigned `column` (the Python local is
unassigned before the first match, hence the `Option`) and the tokens
yielded so far.  A `MISMATCH` raises `RuntimeError` (the message text here
abbreviates the `repr` of the matched character); on the empty document
the final `yield` reads the never-assigned `column`, so the generator
raises a `NameError` instead of yielding `EOF`.  The fuel argument only
bounds the recursion; `tokenize` supplies one unit more than the input
length, and every match consumes at least one character. -/
def tokenizeLoop : Nat → List Char → Nat → Nat → Nat → Option Nat → List DDToken →
    Except String (List DDToken)
  | 0, _, _, _, _, _, _ => Except.error "tokenizeLoop: fuel exhausted"
  | _ + 1, [], _, line_num, _, lastCol, acc =>
    match lastCol with
    | none => Except.error "NameError: column is not defined"
    | some col => Except.ok (acc ++ [⟨"EOF", none, line_num, col⟩])
  | fuel + 1, c :: cs, pos, line_num, line_start, _, acc =>
    let m := nextMatch c cs
    let column := pos - line_start
    let line_start2 := if m.1 = "NL" then pos + m.2.2 else line_start
    let line_num2 := if m.1 = "NL" then line_num + 1 else line_num
    if m.1 = "MISMATCH" then
      Except.error ("mismatch unexpected on line " ++ toString line_num2 ++
        " at col " ++ toString column)
    else
      tokenizeLoop fuel ((c :: cs).drop m.2.2) (pos + m.2.2) line_num2 line_start2
        (some column) (acc ++ [⟨m.1, m.2.1, line_num2, column⟩])

/-- `DirectoryDocument.tokenize`: the token stream of a document, or the
exception the generator raises. -/
def tokenize (doc : List Char) : Except String (List DDToken) :=
  tokenizeLoop (doc.length + 1) doc 0 1 0 none []

/-! ## Directory document itemizer (`DirectoryDocumentItemizer`) -/

/-- `DirectoryDocumentItemError`: the forgivable itemization errors. -/
inductive DDItemError
  | TRAILING_WHITESPACE
deriving DecidableEq, Repr

/-- The `value` of a `DirectoryDocumentItemError`. -/
def DDItemError.value : DDItemError → String
  | TRAILING_WHITESPACE => "trailing-whitespace"

/-- base64 alphabet value of a character. -/
def b64Val (c : Char) : Option Nat :=
  if 'A' ≤ c ∧ c ≤ 'Z' then some (c.toNat - 65)
  else if 'a' ≤ c ∧ c ≤ 'z' then some (c.toNat - 71)
  else if '0' ≤ c ∧ c ≤ '9' then some (c.toNat + 4)
  else if c = '+' then some 62
  else if c = '/' then some 63
  else none

/-- Decode base64 sextets, four to three bytes, the final group of three
or two sextets yielding two bytes or one; a leftover lone sextet is an
error. -/
def b64Groups : List Nat → Option (List Nat)
  | [] => some []
  | [_] => none
  | [a, b] => some [a * 4 + b / 16]
  | [a, b, c] => some [a * 4 + b / 16, b % 16 * 16 + c / 4]
  | a :: b :: c :: d :: rest =>
    (b64Groups rest).map (fun bs =>
      (a * 4 + b / 16) :: (b % 16 * 16 + c / 4) :: (c % 4 * 64 + d) :: bs)

/-- `decode_object_data(lines) = base64.b64decode("".join(lines))`
(directory.py lines 45-56), modelling CPython `b64decode` of the external
`base64` module: characters outside the alphabet are discarded, decoding
stops at the first `=` padding and a leftover lone sextet raises
`binascii.Error`. -/
def decode_object_data (lines : List String) : Option (List Nat) :=
  let joined := String.join lines
  let body := joined.data.takeWhile (fun c => c != '=')
  b64Groups (body.filterMap b64Val)

/-- A `DirectoryDocumentObject`: object keyword and decoded data. -/
structure DDObject where
  keyword : Option String
  data : List Nat
deriving DecidableEq, Repr

/-- A `DirectoryDocumentItem`.  (The keyword starts out as Python `None`;
the `PRINTABLE` tokens from which arguments are appended always carry a
value, flattened here with the empty-string default.) -/
structure DDItem where
  keyword : Option String
  arguments : List String
  objects : List DDObject
  errors : List DDItemError
deriving DecidableEq, Repr

/-- The mutable fields of a `DirectoryDocumentItemizer` (directory.py
lines 354-373); `token` is the most recently eaten token. -/
structure ItemizerSt where
  state : String
  allowed_errors : List DDItemError
  token : Option DDToken
  keyword : Option String
  arguments : List String
  objects : List DDObject
  errors : List DDItemError
  object_keyword : Option String
  object_data : List String
deriving DecidableEq, Repr

/-- A freshly constructed `DirectoryDocumentItemizer(allowed_errors)`. -/
def itemizerInit (allowed_errors : List DDItemError) : ItemizerSt :=
  ⟨"START", allowed_errors, none, none, [], [], [], none, []⟩

/-- `reset_object_state` (directory.py lines 382-384). -/
def resetObjectState (st : ItemizerSt) : ItemizerSt :=
  {st with object_keyword := none, object_data := []}

/-- `reset_item_state(next_keyword)` (directory.py lines 375-380). -/
def resetItemState (st : ItemizerSt) (next_keyword : Option String) : ItemizerSt :=
  resetObjectState { st with
    keyword := next_keyword
    arguments := []
    objects := []
    errors := [] }

/-- `item_done(next_keyword)` (directory.py lines 386-390): emit the
current item, reset, and continue in `KEYWORD-LINE` when a next keyword
was seen (a non-empty Python string is truthy) or `START` at `EOF`. -/
def itemDone (st : ItemizerSt) (next_keyword : Option String) :
    ItemizerSt × Option DDItem :=
  let done := DDItem.mk st.keyword st.arguments st.objects st.errors
  let st2 := resetItemState st next_keyword
  ({st2 with state := if next_keyword.isSome then "KEYWORD-LINE" else "START"},
    some done)

/-- `DirectoryDocumentItemizer.error(error)` (directory.py lines 392-397):
an error on the allow-list is appended to the current item's errors,
otherwise a fatal `RuntimeError` carries the token's line and column. -/
def itemizerError (st : ItemizerSt) (t : DDToken) (e : DDItemError) :
    Except String ItemizerSt :=
  if e ∈ st.allowed_errors then
    Except.ok {st with errors := st.errors ++ [e]}
  else
    Except.error ("Encountered a " ++ e.value ++ " error on line " ++
      toString t.line ++ " at col " ++ toString t.column)

/-- Python `repr`-free rendering of a token value, `None` included, for
`expected_not_found` messages. -/
def showOptValue : Option String → String
  | some s => s
  | none => "None"

/-- `expected_not_found(expected)` (directory.py lines 399-403). -/
def expectedNotFound (t : DDToken) (expected : String) : String :=
  "Expected " ++ expected ++ " on line " ++ toString t.line ++ " at col " ++
    toString t.column ++ ", but found " ++ t.kind ++ " " ++ showOptValue t.value

/-- `token_start` (directory.py lines 415-420). -/
def tokenStart (st : ItemizerSt) (t : DDToken) :
    Except String (ItemizerSt × Option DDItem) :=
  if t.kind = "PRINTABLE" then
    Except.ok ({st with keyword := t.value, state := "KEYWORD-LINE"}, none)
  else Except.error (expectedNotFound t "keyword")

/-- `token_keyword_line` (directory.py lines 422-428). -/
def tokenKeywordLine (st : ItemizerSt) (t : DDToken) :
    Except String (ItemizerSt × Option DDItem) :=
  if t.kind = "NL" then Except.ok ({st with state := "KEYWORD-LINE-END"}, none)
  else if t.kind = "WS" then Except.ok ({st with state := "KEYWORD-LINE-WS"}, none)
  else Except.error (expectedNotFound t "whitespace or newline")

/-- `token_keyword_line_ws` (directory.py lines 430-438). -/
def tokenKeywordLineWs (st : ItemizerSt) (t : DDToken) :
    Except String (ItemizerSt × Option DDItem) :=
  if t.kind = "NL" then
    (itemizerError st t DDItemError.TRAILING_WHITESPACE).map
      (fun st2 => ({st2 with state := "KEYWORD-LINE-END"}, none))
  else if t.kind = "PRINTABLE" then
    Except.ok ({ st with
      arguments := st.arguments ++ [t.value.getD ""]
      state := "KEYWORD-LINE" }, none)
  else Except.error (expectedNotFound t "argument")

/-- `token_keyword_line_end` (directory.py lines 440-450). -/
def tokenKeywordLineEnd (st : ItemizerSt) (t : DDToken) :
    Except String (ItemizerSt × Option DDItem) :=
  if t.kind = "BEGIN" then
    Except.ok ({st with object_keyword := t.value, state := "OBJECT-DATA"}, none)
  else if t.kind = "PRINTABLE" then Except.ok (itemDone st t.value)
  else if t.kind = "EOF" then Except.ok (itemDone st none)
  else Except.error (expectedNotFound t "begin line, keyword or EOF")

/-- `token_object_data` (directory.py lines 452-464). -/
def tokenObjectData (st : ItemizerSt) (t : DDToken) :
    Except String (ItemizerSt × Option DDItem) :=
  if t.kind = "END" then
    match decode_object_data st.object_data with
    | some bs =>
      let st2 := {st with objects := st.objects ++ [DDObject.mk st.object_keyword bs]}
      Except.ok ({resetObjectState st2 with state := "KEYWORD-LINE-END"}, none)
    | none => Except.error "binascii.Error: invalid base64-encoded data"
  else if t.kind = "PRINTABLE" then
    Except.ok ({ st with
      object_data := st.object_data ++ [t.value.getD ""]
      state := "OBJECT-DATA-EOL" }, none)
  else Except.error (expectedNotFound t "object data or end line")

/-- `token_object_data_eol` (directory.py lines 466-470). -/
def tokenObjectDataEol (st : ItemizerSt) (t : DDToken) :
    Except String (ItemizerSt × Option DDItem) :=
  if t.kind = "NL" then Except.ok ({st with state := "OBJECT-DATA"}, none)
  else Except.error (expectedNotFound t "newline")

/-- `DirectoryDocumentItemizer.eat(token)` (directory.py lines 409-413):
record the token and dispatch on the state (an unknown state would be a
Python `KeyError`).  The result is the new itemizer state and the emitted
item, if any. -/
def eat (st : ItemizerSt) (t : DDToken) : Except String (ItemizerSt × Option DDItem) :=
  let st := {st with token := some t}
  if st.state = "START" then tokenStart st t
  else if st.state = "KEYWORD-LINE" then tokenKeywordLine st t
  else if st.state = "KEYWORD-LINE-WS" then tokenKeywordLineWs st t
  else if st.state = "KEYWORD-LINE-END" then tokenKeywordLineEnd st t
  else if st.state = "OBJECT-DATA" then tokenObjectData st t
  else if st.state = "OBJECT-DATA-EOL" then tokenObjectDataEol st t
  else Except.error "KeyError: unknown itemizer state"

/-! ## Read-through cache (`DirectoryCache`, `src/bushel/cache.py`)

The cache is modelled at descriptor granularity: the in-memory map holds
parsed descriptors, the archive holds, at each path, the descriptor that
the file written there parses back to (the byte-level store/parse round
trip is verified separately for the archive itself), and the downloader is
an oracle from digests to the descriptors the directory servers hold. -/

/-- Python `list.remove(x)` (`ValueError` if absent). -/
def pyRemove (l : List String) (x : String) : Except String (List String) :=
  if x ∈ l then Except.ok (l.erase x)
  else Except.error "ValueError: list.remove(x): x not in list"

/-- `DirectoryCache._cached_descriptor(doctype, digest)` (cache.py lines
53-56) on the server-descriptor map. -/
def cachedDescriptor (mem : List (String × ServerDescriptor)) (digest : String) :
    Option ServerDescriptor :=
  List.lookup digest mem

/-- State shared by the components of one `DirectoryCache`:
`self.descriptors[SERVER_DESCRIPTOR]` (most recent assignment first), the
archive content, the archive root and the downloader oracle. -/
structure CacheState where
  mem : List (String × ServerDescriptor)
  archiveFiles : List (String × ServerDescriptor)
  archivePath : String
  downloaderHolds : String → Option ServerDescriptor

/-- Result of the first loop of `relay_server_descriptors` (cache.py lines
60-64): the mutated digest list, the descriptors found in memory, the
final value of the Python loop variable `digest` and the number of memory
hits. -/
structure MemLoopResult where
  digests : List String
  found : List ServerDescriptor
  lastVar : Option String
  hits : Nat

/-- The loop `for digest in digests:` of `relay_server_descriptors`
(cache.py lines 60-64), which removes found digests from the list it is
iterating: CPython's list iterator advances an index, so the loop visits
`digests[i]` for increasing `i` against the shrinking list and removing
the current element skips the one after it.  The fuel argument only
bounds the recursion (the index grows while the list never grows, so the
initial length plus one suffices). -/
def memLoopGo (mem : List (String × ServerDescriptor)) :
    Nat → Nat → List String → List ServerDescriptor → Option String → Nat →
    Except String MemLoopResult
  | 0, _, _, _, _, _ => Except.error "memLoopGo: fuel exhausted"
  | fuel + 1, i, l, acc, lastVar, hits =>
    if h : i < l.length then
      let dg := l.get ⟨i, h⟩
      match cachedDescriptor mem dg with
      | some descriptor =>
        match pyRemove l descriptor.digestHex with
        | Except.ok l2 => memLoopGo mem fuel (i + 1) l2 (acc ++ [descriptor]) (some dg) (hits + 1)
        | Except.error e => Except.error e
      | none => memLoopGo mem fuel (i + 1) l acc (some dg) hits
    else Except.ok ⟨l, acc, lastVar, hits⟩

/-- `DirectoryArchive.relay_server_descriptors(digests, published_hint)`
at cache granularity (archive.py lines 759-783): each digest is looked up
at its deterministic path for the hint, and the descriptors found are
returned in order. -/
def archiveBatchLookup (st : CacheState) (digests : List String)
    (hint : PyDateTime) : List ServerDescriptor :=
  digests.filterMap (fun dg =>
    List.lookup (relay_server_descriptor_path st.archivePath hint dg) st.archiveFiles)

/-- The loop `for descriptor in archived_descriptors:` (cache.py lines
69-70): remove each returned descriptor's digest from the caller's
list. -/
def removeFound : List ServerDescriptor → List String → Except String (List String)
  | [], l => Except.ok l
  | d :: ds, l =>
    match pyRemove l d.digestHex with
    | Except.ok l2 => removeFound ds l2
    | Except.error e => Except.error e

/-- `for descriptor in downloaded_descriptors: await self.archive.store(
descriptor)` (cache.py lines 77-78) at cache granularity. -/
def storeDownloaded (st : CacheState) (ds : List ServerDescriptor) :
    List (String × ServerDescriptor) :=
  ds.foldl (fun fs d =>
    (relay_server_descriptor_path st.archivePath d.published d.digestHex, d) :: fs)
    st.archiveFiles

/-- The final loop `for descriptor in descriptors:
self.descriptors[SERVER_DESCRIPTOR][digest] = descriptor` (cache.py lines
79-80).  The subscript is the loop variable `digest` left over from the
first loop, not `descriptor.digest()`: every descriptor is memoized under
that one stale key, each assignment overwriting the previous one. -/
def memoizeAll (mem : List (String × ServerDescriptor)) (staleKey : String)
    (ds : List ServerDescriptor) : List (String × ServerDescriptor) :=
  ds.foldl (fun m d => (staleKey, d) :: m) mem

/-- What one call of `DirectoryCache.relay_server_descriptors` produces:
the returned descriptors, the caller's digest list as the call leaves it,
whether and with which digests the downloader was consulted, the hit
counts, and the new cache state. -/
structure CacheCallResult where
  descriptors : List ServerDescriptor
  callerDigests : List String
  downloaderCalled : Bool
  downloaderArg : List String
  memHits : Nat
  archHits : Nat
  newState : CacheState

/-- `DirectoryCache.relay_server_descriptors(digests, published_hint)`
(cache.py lines 58-81): memory, then archive, then downloader; downloaded
descriptors are stored to the archive; everything returned is memoized
under the stale `digest` variable.  (`relay_extra_info_descriptors`,
lines 83-106, is the same function on the extra-info maps.)  The
downloader (`DirectoryDownloader.relay_server_descriptors`) splits its
argument into fresh slices with `chunks`, so it does not mutate the
caller's list further. -/
def cacheRelayServerDescriptors (st : CacheState) (digests : List String)
    (hint : PyDateTime) : Except String CacheCallResult :=
  match memLoopGo st.mem (digests.length + 1) 0 digests [] none 0 with
  | Except.error e => Except.error e
  | Except.ok r1 =>
    if r1.digests.isEmpty then
      Except.ok ⟨r1.found, r1.digests, false, [], r1.hits, 0, st⟩
    else
      let archived := archiveBatchLookup st r1.digests hint
      match removeFound archived r1.digests with
      | Except.error e => Except.error e
      | Except.ok l2 =>
        let descriptors := r1.found ++ archived
        let downloaded := if l2.isEmpty then [] else l2.filterMap st.downloaderHolds
        let descriptors2 :=
          if downloaded.isEmpty then descriptors else descriptors ++ downloaded
        let files2 := if downloaded.isEmpty then st.archiveFiles
          else storeDownloaded st downloaded
        match r1.lastVar with
        | none => Except.error "NameError: digest is not defined"
        | some staleKey =>
          Except.ok ⟨descriptors2, l2, !l2.isEmpty,
            if l2.isEmpty then [] else l2, r1.hits, archived.length,
            ⟨memoizeAll st.mem staleKey descriptors2, files2, st.archivePath,
              st.downloaderHolds⟩⟩

/-- A character the tokenizer can match without `MISMATCH`: matched by NL
(`\n`), PRINTABLE (non-whitespace) or WS (space, tab).  BEGIN and END
matches consume only such characters as well, so a document made of these
characters tokenizes without a fatal mismatch. -/
def charClassOk (c : Char) : Bool :=
  c == '\n' || !isPySpace c || c == ' ' || c == '\t'

/-! ## Concrete cache scenarios

Two descriptors published in 2018-11 requested with a published hint in
2018-12 (as happens whenever the scraper requests descriptors published
in an earlier month than the hint, or with no hint outside the month of
publication). -/

def c2Desc1 : ServerDescriptor := ⟨strBytes "router one\n", ⟨2018, 11, 19, 15, 0, 0⟩, "a1d1"⟩

def c2Desc2 : ServerDescriptor := ⟨strBytes "router two\n", ⟨2018, 11, 19, 15, 0, 0⟩, "b2d2"⟩

/-- A downloader that holds both descriptors. -/
def c2Downloader (dg : String) : Option ServerDescriptor :=
  if dg = "a1d1" then some c2Desc1 else if dg = "b2d2" then some c2Desc2 else none

/-- A cache that starts out empty. -/
def c2St0 : CacheState := ⟨[], [], "/srv/archive", c2Downloader⟩

def c2Hint : PyDateTime := ⟨2018, 12, 1, 0, 0, 0⟩

/-- The cache state after the first request for both digests. -/
def c2St1 : CacheState :=
  match cacheRelayServerDescriptors c2St0 ["a1d1", "b2d2"] c2Hint with
  | Except.ok r => r.newState
  | Except.error _ => c2St0

/-- A descriptor already in the archive, and no downloader. -/
def c10Desc : ServerDescriptor := ⟨strBytes "router three\n", ⟨2018, 11, 19, 0, 0, 0⟩, "ab12"⟩

def c10NoDl : String → Option ServerDescriptor := fun _ => none

def c10St : CacheState :=
  ⟨[], [(relay_server_descriptor_path "/srv/archive" ⟨2018, 11, 19, 0, 0, 0⟩ "ab12", c10Desc)],
    "/srv/archive", c10NoDl⟩

def c10Hint : PyDateTime := ⟨2018, 11, 1, 0, 0, 0⟩

/-- The result of requesting `["ab12"]` from `c10St`: resolved from the
archive, removed from the caller's list, no downloader call. -/
def c10ExpectedR : CacheCallResult :=
  ⟨[c10Desc], [], false, [], 0, 1,
    ⟨[("ab12", c10Desc)], c10St.archiveFiles, "/srv/archive", c10NoDl⟩⟩

/-- The document of the tokenizer scenario: a keyword line, a bare
keyword line, and an object. -/
def c7Document : String :=
  "super-keyword 3\nonion-magic\n-----BEGIN ONION MAGIC-----\nAQ.../C\n-----END ONION MAGIC-----\n"

deriving instance DecidableEq for Except

/-! # Theorems -/

theorem chunksGo_join (n : Nat) (hn : 0 < n) :
    ∀ fuel (l : List α), l.length ≤ fuel → (chunksGo n fuel l).flatten = l := by
  intro fuel
  induction fuel with
  | zero =>
    intro l hl
    have : l = [] := List.length_eq_zero.mp (Nat.le_zero.mp hl)
    subst this; rfl
  | succ fuel ih =>
    intro l hl
    match l with
    | [] => rfl
    | a :: t =>
      have hrec : (List.drop n (a :: t)).length ≤ fuel := by
        rw [List.length_drop]
        have h1 : (a :: t).length ≤ fuel + 1 := hl
        omega
      calc (chunksGo n (fuel + 1) (a :: t)).flatten
          = List.take n (a :: t) ++ (chunksGo n fuel (List.drop n (a :: t))).flatten := rfl
        _ = List.take n (a :: t) ++ List.drop n (a :: t) := by rw [ih _ hrec]
        _ = a :: t := List.take_append_drop n (a :: t)

theorem chunksGo_length (n : Nat) (hn : 0 < n) :
    ∀ fuel (l : List α), l.length ≤ fuel →
      (chunksGo n fuel l).length = (l.length + n - 1) / n := by
  intro fuel
  induction fuel with
  | zero =>
    intro l hl
    have : l = [] := List.length_eq_zero.mp (Nat.le_zero.mp hl)
    subst this
    simp [chunksGo, Nat.div_eq_of_lt (by omega : n - 1 < n)]
  | succ fuel ih =>
    intro l hl
    match l with
    | [] => simp [chunksGo, Nat.div_eq_of_lt (by omega : n - 1 < n)]
    | a :: t =>
      have hL : 1 ≤ (a :: t).length := by simp
      have hrec : (List.drop n (a :: t)).length ≤ fuel := by
        rw [List.length_drop]
        have h1 : (a :: t).length ≤ fuel + 1 := hl
        omega
      have step : (chunksGo n (fuel + 1) (a :: t)).length
          = 1 + ((a :: t).length - n + n - 1) / n := by
        have h2 : (chunksGo n (fuel + 1) (a :: t)).length
            = (chunksGo n fuel (List.drop n (a :: t))).length + 1 := rfl
        rw [h2, ih _ hrec, List.length_drop]
        omega
      rw [step]
      rcases le_or_lt (a :: t).length n with h | h
      · have h0 : (a :: t).length - n = 0 := by omega
        rw [h0]
        have left : (0 + n - 1) / n = 0 := Nat.div_eq_of_lt (by omega)
        have right : ((a :: t).length + n - 1) / n = 1 :=
          Nat.div_eq_of_lt_le (by omega) (by omega)
        omega
      · have e1 : (a :: t).length - n + n - 1 = ((a :: t).length - n - 1) + n := by omega
        have e2 : (a :: t).length + n - 1 = (((a :: t).length - n - 1) + n) + n := by omega
        rw [e1, e2, Nat.add_div_right _ hn, Nat.add_div_right _ hn, Nat.add_div_right _ hn]
        omega

theorem chunksGo_mem_length (n : Nat) :
    ∀ fuel (l : List α), ∀ b ∈ chunksGo n fuel l, b.length ≤ n := by
  intro fuel
  induction fuel with
  | zero => intro l b hb; simp [chunksGo] at hb
  | succ fuel ih =>
    intro l b hb
    match l with
    | [] => simp [chunksGo] at hb
    | a :: t =>
      have : b = List.take n (a :: t) ∨ b ∈ chunksGo n fuel (List.drop n (a :: t)) := by
        simpa [chunksGo] using hb
      rcases this with h | h
      · subst h
        simp
      · exact ih _ b h

/-- C6: for every digest list, `DirectoryDownloader.relay_server_descriptors`
(and `relay_extra_info_descriptors`, which calls `chunks` identically)
splits it into `⌈N / MAX_FINGERPRINTS⌉` batches of at most
`MAX_FINGERPRINTS = 96` digests whose in-order concatenation is the input
list; each batch becomes one `_multiple_descriptors` request gathered
concurrently. -/
theorem c6_fetcher_batching (digests : List String) :
    MAX_FINGERPRINTS = 96 ∧
    (relay_server_descriptors_batches digests).length
        = (digests.length + MAX_FINGERPRINTS - 1) / MAX_FINGERPRINTS ∧
    (∀ b ∈ relay_server_descriptors_batches digests, b.length ≤ MAX_FINGERPRINTS) ∧
    (relay_server_descriptors_batches digests).flatten = digests := by
  refine ⟨rfl, ?_, ?_, ?_⟩
  · exact chunksGo_length MAX_FINGERPRINTS (by decide) _ _ le_rfl
  · intro b hb
    exact chunksGo_mem_length _ _ _ b hb
  · exact chunksGo_join MAX_FINGERPRINTS (by decide) _ _ le_rfl

/-- C6 (witness): 100 digests are split into 2 batches, the first full
batch within the 96-digest bound. -/
theorem c6_fetcher_batching_witness :
    List.replicate 96 "d" ∈ relay_server_descriptors_batches (List.replicate 100 "d") ∧
    (List.replicate 96 "d").length ≤ MAX_FINGERPRINTS :=
  ⟨by decide, (c6_fetcher_batching (List.replicate 100 "d")).2.2.1
    (List.replicate 96 "d") (by decide)⟩

/-- C3 (counterexample): the query path for the digests given in the order
`B389…`, `A94A…` does not start with the `A94A…` digest: the code joins the
digests in the order given, without sorting. -/
theorem c3_query_path_counterexample :
    relay_server_descriptors_query_path
        ["B38974987323394795879383ABEF4893BD4895A8",
         "A94A07B201598D847105AE5FCD5BC3AB10124389"]
      ≠ ("/tor/server/d/A94A07B201598D847105AE5FCD5BC3AB10124389+" ++
         "B38974987323394795879383ABEF4893BD4895A8") := by decide

/-- C3 (amended): the server-descriptor query path is `/tor/server/d/`
followed by the digests joined by `+` in the order the caller passed them
(no sorting); in particular `B389…` before `A94A…` stays in that order. -/
theorem c3_query_path_joins_in_given_order :
    (∀ d1 d2 : String, relay_server_descriptors_query_path [d1, d2]
        = "/tor/server/d/" ++ (d1 ++ "+" ++ d2)) ∧
    relay_server_descriptors_query_path
        ["B38974987323394795879383ABEF4893BD4895A8",
         "A94A07B201598D847105AE5FCD5BC3AB10124389"]
      = ("/tor/server/d/B38974987323394795879383ABEF4893BD4895A8+" ++
         "A94A07B201598D847105AE5FCD5BC3AB10124389") := by
  constructor
  · intro d1 d2
    rfl
  · decide

/-- C4 (counterexample): for the `ns` flavor the consensus query path the
code builds is not `/tor/status-vote/current/consensus`: the f-string
always appends `-{flavor}`. -/
theorem c4_consensus_path_counterexample :
    consensus_query_path "ns" ≠ "/tor/status-vote/current/consensus" := by decide

/-- C4 (amended): the consensus query path is
`/tor/status-vote/current/consensus-<flavor>`, i.e. `…consensus-ns` for
the `ns` flavor and `…consensus-microdesc` for the microdesc flavor. -/
theorem c4_consensus_path_flavored :
    consensus_query_path "ns" = "/tor/status-vote/current/consensus-ns" ∧
    consensus_query_path "microdesc" = "/tor/status-vote/current/consensus-microdesc" :=
  ⟨rfl, rfl⟩

/-- Stripping the annotation line of a stored file recovers the raw bytes
exactly when the annotation contains no line feed. -/
theorem stripAnnotLine_append (pre raw : List Nat) (h : ∀ b ∈ pre, b ≠ 10) :
    stripAnnotLine (pre ++ 10 :: raw) = some raw := by
  induction pre with
  | nil => simp [stripAnnotLine]
  | cons b t ih =>
    have hb : b ≠ 10 := h b (by simp)
    simp only [List.cons_append, stripAnnotLine, if_neg hb]
    exact ih (fun x hx => h x (by simp [hx]))

/-- C1: if the archive stores a relay server descriptor `d`, the file
written is exactly the ASCII type-annotation line, one LF, and `d`'s
verbatim raw bytes; and the getter called with `d`'s digest and a
published hint in the same month (and year) as `d`'s published time
returns a document whose raw bytes equal `d`'s raw bytes. -/
theorem c1_archive_round_trip (archivePath : String) (fs : FileSys)
    (d : ServerDescriptor) (hint : PyDateTime)
    (hy : hint.year = d.published.year) (hm : hint.month = d.published.month) :
    fsRead (archive_store_server_descriptor archivePath fs d)
        (relay_server_descriptor_path archivePath d.published d.digestHex)
      = some (strBytes serverDescriptorTypeAnnot ++ 10 :: d.raw) ∧
    archive_get_server_descriptor_raw archivePath
        (archive_store_server_descriptor archivePath fs d) d.digestHex hint
      = some d.raw := by
  have hpath : relay_server_descriptor_path archivePath hint d.digestHex
      = relay_server_descriptor_path archivePath d.published d.digestHex := by
    unfold relay_server_descriptor_path collector_521_path collector_521_substructure
    rw [hy, hm]
  have hread : fsRead (archive_store_server_descriptor archivePath fs d)
      (relay_server_descriptor_path archivePath d.published d.digestHex)
      = some (prepare_annotated_content d) := by
    unfold archive_store_server_descriptor fsWrite fsRead
    simp [List.lookup]
  constructor
  · rw [hread]
    unfold prepare_annotated_content
    simp
  · unfold archive_get_server_descriptor_raw
    rw [hpath, hread]
    unfold prepare_annotated_content
    have hform : strBytes serverDescriptorTypeAnnot ++ [10] ++ d.raw
        = strBytes serverDescriptorTypeAnnot ++ 10 :: d.raw := by simp
    rw [hform, Option.some_bind]
    exact stripAnnotLine_append _ _ (by decide)

/-- C1 (witness): a concrete descriptor published 2018-11-19, retrieved
with a hint on a different day of the same month. -/
theorem c1_archive_round_trip_witness :
    (PyDateTime.mk 2018 11 1 0 0 0).year
        = (ServerDescriptor.mk (strBytes "router nick 1.2.3.4\n")
            (PyDateTime.mk 2018 11 19 15 1 2) "a94a07b2").published.year ∧
    (PyDateTime.mk 2018 11 1 0 0 0).month
        = (ServerDescriptor.mk (strBytes "router nick 1.2.3.4\n")
            (PyDateTime.mk 2018 11 19 15 1 2) "a94a07b2").published.month ∧
    archive_get_server_descriptor_raw "/srv/archive"
        (archive_store_server_descriptor "/srv/archive" []
          (ServerDescriptor.mk (strBytes "router nick 1.2.3.4\n")
            (PyDateTime.mk 2018 11 19 15 1 2) "a94a07b2"))
        "a94a07b2" (PyDateTime.mk 2018 11 1 0 0 0)
      = some (strBytes "router nick 1.2.3.4\n") :=
  ⟨rfl, rfl,
    (c1_archive_round_trip "/srv/archive" []
      (ServerDescriptor.mk (strBytes "router nick 1.2.3.4\n")
        (PyDateTime.mk 2018 11 19 15 1 2) "a94a07b2")
      (PyDateTime.mk 2018 11 1 0 0 0) rfl rfl).2⟩

/-- C8: in state `KEYWORD-LINE-WS` an `NL` token moves the itemizer to
`KEYWORD-LINE-END`; if `TRAILING_WHITESPACE` is in the configured
`allowed_errors` the error is appended to the current item's errors list
and itemization continues, otherwise a fatal error is raised whose
message carries the token's line and column. -/
theorem c8_keyword_line_ws_nl (st : ItemizerSt) (t : DDToken)
    (hst : st.state = "KEYWORD-LINE-WS") (ht : t.kind = "NL") :
    (DDItemError.TRAILING_WHITESPACE ∈ st.allowed_errors →
      eat st t = Except.ok ({ st with
        token := some t
        errors := st.errors ++ [DDItemError.TRAILING_WHITESPACE]
        state := "KEYWORD-LINE-END" }, none)) ∧
    (DDItemError.TRAILING_WHITESPACE ∉ st.allowed_errors →
      eat st t = Except.error ("Encountered a trailing-whitespace error on line "
        ++ toString t.line ++ " at col " ++ toString t.column)) := by
  constructor
  · intro hmem
    simp [eat, hst, tokenKeywordLineWs, ht, itemizerError, hmem, Except.map]
  · intro hmem
    simp [eat, hst, tokenKeywordLineWs, ht, itemizerError, hmem, DDItemError.value,
      Except.map]

/-- C8 (witness): both behaviours at a concrete itemizer state and NL
token on line 2, column 8, forgiving and strict. -/
theorem c8_keyword_line_ws_nl_witness :
    (ItemizerSt.mk "KEYWORD-LINE-WS" [DDItemError.TRAILING_WHITESPACE] none
        (some "kw") ["a"] [] [] none []).state = "KEYWORD-LINE-WS" ∧
    (DDToken.mk "NL" (some "\n") 2 8).kind = "NL" ∧
    eat (ItemizerSt.mk "KEYWORD-LINE-WS" [DDItemError.TRAILING_WHITESPACE] none
        (some "kw") ["a"] [] [] none []) (DDToken.mk "NL" (some "\n") 2 8)
      = Except.ok (ItemizerSt.mk "KEYWORD-LINE-END" [DDItemError.TRAILING_WHITESPACE]
          (some (DDToken.mk "NL" (some "\n") 2 8)) (some "kw") ["a"] []
          [DDItemError.TRAILING_WHITESPACE] none [], none) ∧
    eat (ItemizerSt.mk "KEYWORD-LINE-WS" [] none (some "kw") ["a"] [] [] none [])
        (DDToken.mk "NL" (some "\n") 2 8)
      = Except.error "Encountered a trailing-whitespace error on line 2 at col 8" := by
  refine ⟨rfl, rfl, ?_, ?_⟩
  · exact (c8_keyword_line_ws_nl
      (ItemizerSt.mk "KEYWORD-LINE-WS" [DDItemError.TRAILING_WHITESPACE] none
        (some "kw") ["a"] [] [] none []) (DDToken.mk "NL" (some "\n") 2 8)
      rfl rfl).1 (by decide)
  · exact (c8_keyword_line_ws_nl
      (ItemizerSt.mk "KEYWORD-LINE-WS" [] none (some "kw") ["a"] [] [] none [])
      (DDToken.mk "NL" (some "\n") 2 8) rfl rfl).2 (by decide)

/-- C7 (counterexample): tokenizing the scenario document does not yield
the claimed sequence: there is no `NL` token between `BEGIN` and the
object data line, because the `BEGIN` (and `END`) pattern itself consumes
the newline that ends the line. -/
theorem c7_token_sequence_counterexample :
    (tokenize c7Document.data).map (List.map (fun t => (t.kind, t.value)))
      ≠ Except.ok [("PRINTABLE", some "super-keyword"), ("WS", some " "),
        ("PRINTABLE", some "3"), ("NL", some "\n"),
        ("PRINTABLE", some "onion-magic"), ("NL", some "\n"),
        ("BEGIN", some "ONION MAGIC"), ("NL", some "\n"),
        ("PRINTABLE", some "AQ.../C"), ("NL", some "\n"),
        ("END", some "ONION MAGIC"), ("EOF", none)] := by decide

/-- C7 (amended): tokenizing the scenario document yields exactly
`PRINTABLE("super-keyword"), WS, PRINTABLE("3"), NL,
PRINTABLE("onion-magic"), NL, BEGIN("ONION MAGIC"), PRINTABLE("AQ.../C"),
NL, END("ONION MAGIC"), EOF`, with the BEGIN and END tokens carrying the
keyword as value and consuming the newline that ends their line. -/
theorem c7_token_sequence :
    (tokenize c7Document.data).map (List.map (fun t => (t.kind, t.value)))
      = Except.ok [("PRINTABLE", some "super-keyword"), ("WS", some " "),
        ("PRINTABLE", some "3"), ("NL", some "\n"),
        ("PRINTABLE", some "onion-magic"), ("NL", some "\n"),
        ("BEGIN", some "ONION MAGIC"),
        ("PRINTABLE", some "AQ.../C"), ("NL", some "\n"),
        ("END", some "ONION MAGIC"), ("EOF", none)] := by decide

/-- `Char.ofNat` on a value below the surrogate range round-trips. -/
theorem charToNat_ofNat (n : Nat) (h : n < 55296) : (Char.ofNat n).toNat = n := by
  have hv : n.isValidChar := Or.inl h
  rw [Char.ofNat, dif_pos hv]
  rfl

theorem char_le_toNat (c d : Char) : c ≤ d ↔ c.toNat ≤ d.toNat := Iff.rfl

/-- ASCII upper-casing is idempotent, characterwise. -/
theorem pyCharUpper_idem (c : Char) : pyCharUpper (pyCharUpper c) = pyCharUpper c := by
  unfold pyCharUpper
  by_cases h : 'a' ≤ c ∧ c ≤ 'z'
  · rw [if_pos h]
    have h97 : 97 ≤ c.toNat := h.1
    have h122 : c.toNat ≤ 122 := h.2
    have htn : (Char.ofNat (c.toNat - 32)).toNat = c.toNat - 32 :=
      charToNat_ofNat _ (by omega)
    have hno : ¬ ('a' ≤ Char.ofNat (c.toNat - 32) ∧ Char.ofNat (c.toNat - 32) ≤ 'z') := by
      intro hcon
      have hle := (char_le_toNat 'a' (Char.ofNat (c.toNat - 32))).mp hcon.1
      rw [htn] at hle
      have h97a : ('a' : Char).toNat = 97 := rfl
      omega
    rw [if_neg hno]
  · rw [if_neg h, if_neg h]

/-- `s.upper().upper() = s.upper()`: `collector_433_filename` up-cases the
already upper-cased digest computed in `path_for`. -/
theorem pyUpper_idem (s : String) : pyUpper (pyUpper s) = pyUpper s := by
  show String.mk ((s.data.map pyCharUpper).map pyCharUpper) = String.mk (s.data.map pyCharUpper)
  rw [List.map_map]
  congr 1
  exact List.map_congr_left (fun c _ => pyCharUpper_idem c)

/-- C5: a vote whose raw bytes contain `"\ndirectory-signature "` at
index `i` is archived at the relative path
`relay-descriptors/vote/YYYY/MM/DD/YYYY-MM-DD-HH-MM-SS-vote-<V3IDENT-UPPER>-<DIGEST-UPPER>`
(month through second zero-padded to two digits, v3ident up-cased whatever
its input case) where the digest is the upper-case hex SHA-1 of the bytes
up to and including the marker. -/
theorem c5_vote_archive_path (va : PyDateTime) (v3ident : String) (raw : List Nat)
    (i : Nat) (hfind : pyFind raw voteSigMarker = (i : Int)) :
    vote_store_relpath va v3ident raw
      = "relay-descriptors/vote/" ++ toString va.year ++ "/" ++ pad2 va.month ++ "/"
        ++ pad2 va.day ++ "/" ++ toString va.year ++ "-" ++ pad2 va.month ++ "-"
        ++ pad2 va.day ++ "-" ++ pad2 va.hour ++ "-" ++ pad2 va.minute ++ "-"
        ++ pad2 va.second ++ "-vote-" ++ pyUpper v3ident ++ "-"
        ++ pyUpper (bytesToHexLower (sha1 (List.take (i + voteSigMarker.length) raw))) := by
  unfold vote_store_relpath voteDigest voteSignedPortion collector_522_path
    collector_522_substructure collector_433_filename pathJoin
    subdirRELAY_DESCRIPTORS markerVOTE
  rw [hfind]
  have htn : ((i : Int) + (voteSigMarker.length : Int)).toNat = i + voteSigMarker.length := by
    omega
  rw [htn, pyUpper_idem]
  simp [← String.append_assoc]

/-- C5 (witness): a concrete vote body whose signature marker sits at
index 29, archived for moria1's v3ident given in lower case. -/
theorem c5_vote_archive_path_witness :
    pyFind (strBytes "network-status-version 3 vote\ndirectory-signature sig")
        voteSigMarker = (29 : Int) ∧
    vote_store_relpath (PyDateTime.mk 2018 11 19 15 0 0)
        "d586d18309ded4cd6d57c18fdb97efa96d330566"
        (strBytes "network-status-version 3 vote\ndirectory-signature sig")
      = "relay-descriptors/vote/" ++ toString 2018 ++ "/" ++ pad2 11 ++ "/"
        ++ pad2 19 ++ "/" ++ toString 2018 ++ "-" ++ pad2 11 ++ "-"
        ++ pad2 19 ++ "-" ++ pad2 15 ++ "-" ++ pad2 0 ++ "-"
        ++ pad2 0 ++ "-vote-" ++ pyUpper "d586d18309ded4cd6d57c18fdb97efa96d330566" ++ "-"
        ++ pyUpper (bytesToHexLower (sha1 (List.take (29 + voteSigMarker.length)
            (strBytes "network-status-version 3 vote\ndirectory-signature sig")))) :=
  ⟨by decide,
    c5_vote_archive_path (PyDateTime.mk 2018 11 19 15 0 0)
      "d586d18309ded4cd6d57c18fdb97efa96d330566"
      (strBytes "network-status-version 3 vote\ndirectory-signature sig") 29 (by decide)⟩

/-- C2 (code bug, evaluated at the failing input): the first request for
`["a1d1", "b2d2"]` downloads and returns both descriptors, yet afterwards
the in-memory map has no entry for digest `a1d1` — the memoization loop
(cache.py line 80) keys every descriptor by the stale loop variable
`digest` instead of `descriptor.digest()` — so the second, identical
request for `["a1d1"]` misses memory (and the archive, whose path is
derived from the hint month, not the publication month) and consults the
downloader again.  The claim, as the spec states it, requires the second
request to be answered from the in-memory map without a Fetcher call. -/
theorem c2_memoization_bug :
    (cacheRelayServerDescriptors c2St0 ["a1d1", "b2d2"] c2Hint).map
        (fun r => (r.descriptors.map ServerDescriptor.digestHex, r.downloaderCalled))
      = Except.ok (["a1d1", "b2d2"], true) ∧
    cachedDescriptor c2St1.mem "a1d1" = none ∧
    cachedDescriptor c2St1.mem "b2d2" = some c2Desc2 ∧
    (cacheRelayServerDescriptors c2St1 ["a1d1"] c2Hint).map
        (fun r => (r.descriptors.map ServerDescriptor.digestHex, r.downloaderCalled))
      = Except.ok (["a1d1"], true) := by
  refine ⟨?_, ?_, ?_, ?_⟩ <;> rfl

/-- The first cache loop shortens the digest list by exactly the number of
memory hits. -/
theorem memLoopGo_len (mem : List (String × ServerDescriptor)) :
    ∀ fuel i l acc lastVar hits r,
      memLoopGo mem fuel i l acc lastVar hits = Except.ok r →
      r.digests.length + r.hits = l.length + hits := by
  intro fuel
  induction fuel with
  | zero =>
    intro i l acc lastVar hits r h
    exact absurd h (by simp [memLoopGo])
  | succ fuel ih =>
    intro i l acc lastVar hits r h
    rw [memLoopGo] at h
    by_cases hi : i < l.length
    · rw [dif_pos hi] at h
      cases hc : cachedDescriptor mem (l.get ⟨i, hi⟩) with
      | none =>
        simp only [hc] at h
        exact ih _ _ _ _ _ _ h
      | some descriptor =>
        simp only [hc] at h
        simp only [pyRemove] at h
        by_cases hm : descriptor.digestHex ∈ l
        · rw [if_pos hm] at h
          have hrec := ih _ _ _ _ _ _ h
          have hl := List.length_erase_of_mem hm
          omega
        · rw [if_neg hm] at h
          cases h
    · rw [dif_neg hi] at h
      injection h with h2
      subst h2
      simp

/-- The archive loop shortens the digest list by exactly the number of
archived descriptors returned. -/
theorem removeFound_len : ∀ (ds : List ServerDescriptor) (l l2 : List String),
    removeFound ds l = Except.ok l2 → l2.length + ds.length = l.length := by
  intro ds
  induction ds with
  | nil =>
    intro l l2 h
    simp only [removeFound] at h
    injection h with h2
    subst h2
    simp
  | cons d t ih =>
    intro l l2 h
    simp only [removeFound, pyRemove] at h
    by_cases hm : d.digestHex ∈ l
    · rw [if_pos hm] at h
      have hrec := ih _ _ h
      have hl := List.length_erase_of_mem hm
      have hpos := List.length_pos_of_mem hm
      have hcons : (d :: t).length = t.length + 1 := rfl
      omega
    · rw [if_neg hm] at h
      cases h

/-- C10: the cache's multi-digest getter mutates the caller's digest list
in place: every digest resolved from the in-memory map or from the archive
is removed before the downloader is consulted (when consulted, the
downloader receives exactly the list as mutated), and whenever at least
one digest was so resolved the list the caller passed in no longer equals
its original value when the call returns — it is shorter by exactly the
number of resolutions. -/
theorem c10_cache_mutates_caller_list (st : CacheState) (digests : List String)
    (hint : PyDateTime) (r : CacheCallResult)
    (hok : cacheRelayServerDescriptors st digests hint = Except.ok r)
    (hres : 1 ≤ r.memHits + r.archHits) :
    r.callerDigests.length + r.memHits + r.archHits = digests.length ∧
    r.callerDigests ≠ digests ∧
    (r.downloaderCalled = true → r.downloaderArg = r.callerDigests) := by
  unfold cacheRelayServerDescriptors at hok
  cases hmem : memLoopGo st.mem (digests.length + 1) 0 digests [] none 0 with
  | error e =>
    simp only [hmem] at hok
    cases hok
  | ok r1 =>
    simp only [hmem] at hok
    have hlen1 := memLoopGo_len st.mem _ _ _ _ _ _ _ hmem
    by_cases hemp : r1.digests.isEmpty
    · rw [if_pos hemp] at hok
      injection hok with h2
      subst h2
      have hnil : r1.digests = [] := List.isEmpty_iff.mp hemp
      dsimp only at hres ⊢
      rw [hnil] at hlen1 ⊢
      simp only [List.length_nil, Nat.zero_add, Nat.add_zero] at hlen1 hres ⊢
      refine ⟨by omega, ?_, ?_⟩
      · intro hcon
        have hdl : digests.length = 0 := by rw [← hcon]; rfl
        omega
      · intro hcon
        cases hcon
    · rw [if_neg hemp] at hok
      cases hrem : removeFound (archiveBatchLookup st r1.digests hint) r1.digests with
      | error e =>
        simp only [hrem] at hok
        cases hok
      | ok l2 =>
        simp only [hrem] at hok
        have hlen2 := removeFound_len _ _ _ hrem
        cases hlast : r1.lastVar with
        | none =>
          simp only [hlast] at hok
          cases hok
        | some staleKey =>
          simp only [hlast] at hok
          injection hok with h2
          subst h2
          dsimp only at hres ⊢
          refine ⟨by omega, ?_, ?_⟩
          · intro hcon
            have : l2.length = digests.length := by rw [hcon]
            omega
          · by_cases h2e : l2.isEmpty
            · simp [h2e]
            · simp [h2e]

/-- C10 (witness): requesting `["ab12"]` resolves it from the archive;
the caller's list comes back empty, no longer equal to `["ab12"]`. -/
theorem c10_cache_mutates_caller_list_witness :
    cacheRelayServerDescriptors c10St ["ab12"] c10Hint = Except.ok c10ExpectedR ∧
    1 ≤ c10ExpectedR.memHits + c10ExpectedR.archHits ∧
    c10ExpectedR.callerDigests ≠ ["ab12"] :=
  ⟨rfl, by decide,
    (c10_cache_mutates_caller_list c10St ["ab12"] c10Hint c10ExpectedR rfl
      (by decide)).2.1⟩

/-- A BEGIN/END match consumes at least one character. -/
theorem matchTag_pos (tag : String) (s : List Char) (v : String) (len : Nat)
    (h : matchTag tag s = some (v, len)) : 1 ≤ len := by
  unfold matchTag at h
  split at h
  · dsimp only at h
    split at h
    · injection h with h2
      injection h2 with h3 h4
      omega
    · cases h
  · cases h

/-- The scanner never produces an `EOF` kind itself; only the final yield
does. -/
theorem nextMatch_ne_eof (c : Char) (cs : List Char) : (nextMatch c cs).1 ≠ "EOF" := by
  unfold nextMatch
  cases hE : matchTag "-----END " (c :: cs) with
  | some p =>
    obtain ⟨v, len⟩ := p
    simp
  | none =>
    cases hB : matchTag "-----BEGIN " (c :: cs) with
    | some p =>
      obtain ⟨v, len⟩ := p
      simp
    | none =>
      by_cases hnl : c = '\n'
      · simp [hnl]
      · rw [if_neg hnl]
        by_cases hsp : !isPySpace c
        · simp [hsp]
        · rw [if_neg hsp]
          by_cases hws : c = ' ' ∨ c = '\t'
          · simp [hws]
          · simp [hws]

/-- Every token match consumes at least one character. -/
theorem nextMatch_pos (c : Char) (cs : List Char) : 1 ≤ (nextMatch c cs).2.2 := by
  unfold nextMatch
  cases hE : matchTag "-----END " (c :: cs) with
  | some p =>
    obtain ⟨v, len⟩ := p
    simpa using matchTag_pos _ _ _ _ hE
  | none =>
    cases hB : matchTag "-----BEGIN " (c :: cs) with
    | some p =>
      obtain ⟨v, len⟩ := p
      simpa using matchTag_pos _ _ _ _ hB
    | none =>
      by_cases hnl : c = '\n'
      · simp [hnl]
      · rw [if_neg hnl]
        by_cases hsp : !isPySpace c
        · rw [if_pos hsp]
          have : List.takeWhile (fun x => !isPySpace x) (c :: cs)
              = c :: List.takeWhile (fun x => !isPySpace x) cs := by
            rw [List.takeWhile_cons, if_pos hsp]
          simp [this]
        · rw [if_neg hsp]
          by_cases hws : c = ' ' ∨ c = '\t'
          · rw [if_pos hws]
            have hcv : (fun x => x == ' ' || x == '\t') c = true := by
              rcases hws with h | h <;> simp [h]
            have : List.takeWhile (fun x => x == ' ' || x == '\t') (c :: cs)
                = c :: List.takeWhile (fun x => x == ' ' || x == '\t') cs := by
              rw [List.takeWhile_cons, if_pos hcv]
            simp [this]
          · simp [hws]

/-- A character matched by NL, PRINTABLE or WS never starts a `MISMATCH`
token. -/
theorem nextMatch_ne_mismatch (c : Char) (cs : List Char)
    (hcc : charClassOk c = true) : (nextMatch c cs).1 ≠ "MISMATCH" := by
  unfold nextMatch
  cases hE : matchTag "-----END " (c :: cs) with
  | some p =>
    obtain ⟨v, len⟩ := p
    simp
  | none =>
    cases hB : matchTag "-----BEGIN " (c :: cs) with
    | some p =>
      obtain ⟨v, len⟩ := p
      simp
    | none =>
      by_cases hnl : c = '\n'
      · simp [hnl]
      · rw [if_neg hnl]
        by_cases hsp : !isPySpace c
        · simp [hsp]
        · rw [if_neg hsp]
          by_cases hws : c = ' ' ∨ c = '\t'
          · simp [hws]
          · exfalso
            unfold charClassOk at hcc
            simp only [Bool.or_eq_true, beq_iff_eq] at hcc
            rcases hcc with ((h | h) | h) | h
            · exact hnl h
            · exact hsp h
            · exact hws (Or.inl h)
            · exact hws (Or.inr h)

/-- Whatever the scanner returns successfully is the accumulated tokens,
then non-`EOF` tokens, then exactly one final `EOF`. -/
theorem tokenizeLoop_ok_shape :
    ∀ fuel (s : List Char) pos ln ls lastCol acc ts,
      tokenizeLoop fuel s pos ln ls lastCol acc = Except.ok ts →
      (∀ t ∈ acc, t.kind ≠ "EOF") →
      ∃ pre l col, ts = acc ++ (pre ++ [DDToken.mk "EOF" none l col]) ∧
        ∀ t ∈ pre, t.kind ≠ "EOF" := by
  intro fuel
  induction fuel with
  | zero =>
    intro s pos ln ls lastCol acc ts h hacc
    exact absurd h (by simp [tokenizeLoop])
  | succ fuel ih =>
    intro s pos ln ls lastCol acc ts h hacc
    match s with
    | [] =>
      cases lastCol with
      | none =>
        simp only [tokenizeLoop] at h
        cases h
      | some col =>
        simp only [tokenizeLoop] at h
        refine ⟨[], ln, col, ?_, by simp⟩
        injection h with h2
        rw [← h2]
        simp
    | c :: cs =>
      simp only [tokenizeLoop] at h
      split at h
      · cases h
      · obtain ⟨pre2, l, col, hts, hpre⟩ := ih _ _ _ _ _ _ _ h (by
          intro t ht
          rcases List.mem_append.mp ht with h1 | h2
          · exact hacc t h1
          · have : t = DDToken.mk (nextMatch c cs).1 (nextMatch c cs).2.1
                (if (nextMatch c cs).1 = "NL" then ln + 1 else ln) (pos - ls) := by
              simpa using h2
            rw [this]
            exact nextMatch_ne_eof c cs)
        refine ⟨DDToken.mk (nextMatch c cs).1 (nextMatch c cs).2.1
          (if (nextMatch c cs).1 = "NL" then ln + 1 else ln) (pos - ls) :: pre2,
          l, col, ?_, ?_⟩
        · rw [hts]
          simp
        · intro t ht
          rcases List.mem_cons.mp ht with h1 | h2
          · rw [h1]
            exact nextMatch_ne_eof c cs
          · exact hpre t h2

/-- On input whose characters all tokenize (and a non-empty input or an
already-assigned `column`), the scanner succeeds. -/
theorem tokenizeLoop_total :
    ∀ fuel (s : List Char) pos ln ls lastCol acc,
      s.length < fuel → (∀ ch ∈ s, charClassOk ch = true) →
      (lastCol ≠ none ∨ s ≠ []) →
      ∃ ts, tokenizeLoop fuel s pos ln ls lastCol acc = Except.ok ts := by
  intro fuel
  induction fuel with
  | zero =>
    intro s pos ln ls lastCol acc hlen
    omega
  | succ fuel ih =>
    intro s pos ln ls lastCol acc hlen hcls hnc
    match s with
    | [] =>
      cases lastCol with
      | none =>
        rcases hnc with h | h
        · exact absurd rfl h
        · exact absurd rfl h
      | some col =>
        exact ⟨acc ++ [DDToken.mk "EOF" none ln col], rfl⟩
    | c :: cs =>
      have hcc : charClassOk c = true := hcls c (by simp)
      have hkind := nextMatch_ne_mismatch c cs hcc
      have hpos := nextMatch_pos c cs
      have hlen2 : (List.drop (nextMatch c cs).2.2 (c :: cs)).length < fuel := by
        rw [List.length_drop]
        have h1 : (c :: cs).length < fuel + 1 := hlen
        have h2 : 0 < (c :: cs).length := by simp
        omega
      have hcls2 : ∀ ch ∈ List.drop (nextMatch c cs).2.2 (c :: cs), charClassOk ch = true :=
        fun ch hch => hcls ch (List.drop_subset _ _ hch)
      obtain ⟨ts, hts⟩ := ih (List.drop (nextMatch c cs).2.2 (c :: cs))
        (pos + (nextMatch c cs).2.2)
        (if (nextMatch c cs).1 = "NL" then ln + 1 else ln)
        (if (nextMatch c cs).1 = "NL" then pos + (nextMatch c cs).2.2 else ls)
        (some (pos - ls))
        (acc ++ [DDToken.mk (nextMatch c cs).1 (nextMatch c cs).2.1
          (if (nextMatch c cs).1 = "NL" then ln + 1 else ln) (pos - ls)])
        hlen2 hcls2 (Or.inl (by simp))
      refine ⟨ts, ?_⟩
      simp only [tokenizeLoop]
      rw [if_neg hkind]
      exact hts

/-- C9: every non-empty document all of whose characters match some token
class tokenizes to a finite stream whose last element is the single `EOF`
token; the non-emptiness is required, because on the empty document the
final yield reads the never-assigned `column` local and the generator
raises `NameError` instead of yielding `EOF`. -/
theorem c9_tokenize_eof :
    (∀ doc : List Char, doc ≠ [] → (∀ ch ∈ doc, charClassOk ch = true) →
      ∃ ts, tokenize doc = Except.ok ts ∧ ts ≠ [] ∧
        (∃ l col, ts.getLast? = some (DDToken.mk "EOF" none l col)) ∧
        (ts.filter (fun t => t.kind == "EOF")).length = 1) ∧
    tokenize [] = Except.error "NameError: column is not defined" := by
  constructor
  · intro doc hne hcls
    obtain ⟨ts, hts⟩ := tokenizeLoop_total (doc.length + 1) doc 0 1 0 none []
      (by omega) hcls (Or.inr hne)
    refine ⟨ts, hts, ?_⟩
    obtain ⟨pre, l, col, hshape, hpre⟩ :=
      tokenizeLoop_ok_shape (doc.length + 1) doc 0 1 0 none [] ts hts (by simp)
    rw [hshape]
    simp only [List.nil_append]
    refine ⟨by simp, ⟨l, col, List.getLast?_concat _⟩, ?_⟩
    rw [List.filter_append]
    have hfil : List.filter (fun t => t.kind == "EOF") pre = [] := by
      rw [List.filter_eq_nil_iff]
      intro t ht
      simp [hpre t ht]
    rw [hfil]
    simp
  · rfl

/-- C9 (witness): the one-character document `"x"`. -/
theorem c9_tokenize_eof_witness :
    (['x'] : List Char) ≠ [] ∧
    (∀ ch ∈ (['x'] : List Char), charClassOk ch = true) ∧
    (∃ ts, tokenize ['x'] = Except.ok ts ∧ ts ≠ [] ∧
      (∃ l col, ts.getLast? = some (DDToken.mk "EOF" none l col)) ∧
      (ts.filter (fun t => t.kind == "EOF")).length = 1) :=
  ⟨by decide, by decide, c9_tokenize_eof.1 ['x'] (by decide) (by decide)⟩
